import Mathlib

/-!
Shallow embedding of `src/crashreporter/crashreporter.py` (class `CrashReporter`).

The report store is the directory `report_dir`, modelled as an association
list of (filename, file content), kept in ascending filename order (a real
directory is an unordered map of names to contents; `_get_offline_reports`
sorts the names it globs, and every directory reachable by the modelled
operations is kept sorted by construction, so listing the entries in order
is faithful).  Paths are reduced to bare filenames: every file operation of
the store happens inside the single directory `report_dir`, and the only
path-sensitive computation in the source, `report[-2:]`, reads the last two
characters, which lie inside the filename.

Channel I/O (SMTP and FTP sessions), logging and the clock are external
effects; each session step is passed in as an `Except String Unit` oracle
describing whether that wire call raised.  Fallible filesystem calls
(`os.remove`, `open` for read) return `Except String` as in the source,
where such errors propagate to the caller uncaught.
-/

namespace CrashReporter

/-- A directory: entries (filename, content), ascending by filename. -/
abbrev Dir := List (String × String)

/-- Python `s[-2:]`: the last two characters (the whole string when shorter). -/
def pySuffix2 (s : String) : String := ⟨s.data.drop (s.data.length - 2)⟩

/-- Python `int(s)` on a decimal string: the value, or a `ValueError`. -/
def pyInt (s : String) : Except String Nat :=
  if s.data.isEmpty || !(s.data.all Char.isDigit) then
    .error ("ValueError: invalid literal for int: " ++ s)
  else
    .ok (s.data.foldl (fun acc c => acc * 10 + (c.toNat - 48)) 0)

/-- `chrs pat s`: does `pat` occur at the start of `s`?  (Glob pattern
`crashreport*` matches exactly the names starting with `crashreport`.) -/
def chrs : List Char → List Char → Bool
  | [], _ => true
  | _ :: _, [] => false
  | a :: as, b :: bs => a == b && chrs as bs

/-- Whether a filename matches the glob pattern `crashreport*`
(line 371: `glob.glob(os.path.join(self.report_dir, "crashreport*"))`). -/
def globMatch (name : String) : Bool := chrs "crashreport".data name.data

/-- Python `"%02d" % n`: zero-pad to two digits. -/
def twoDigit (n : Nat) : String := if n < 10 then "0" ++ toString n else toString n

/-- Line 40: `report_template = "crashreport%02d.txt"` applied to ordinal `n`. -/
def report_template (n : Nat) : String := "crashreport" ++ twoDigit n ++ ".txt"

/-- `open(name).read()`: content of the named file, or a `FileNotFoundError`. -/
def readFile (d : Dir) (name : String) : Except String String :=
  match d.find? (fun p => p.fst == name) with
  | some p => .ok p.snd
  | none => .error ("FileNotFoundError: " ++ name)

/-- Write `content` under `name`, inserting in filename order
(overwrites an existing entry, as `open(name, 'w')` does). -/
def writeFile (d : Dir) (name content : String) : Dir :=
  match d with
  | [] => [(name, content)]
  | p :: rest =>
    if name < p.fst then (name, content) :: p :: rest
    else if name = p.fst then (name, content) :: rest
    else p :: writeFile rest name content

/-- `os.remove(name)`: delete the entry, or raise `FileNotFoundError`. -/
def osRemove (d : Dir) (name : String) : Except String Dir :=
  if (d.map Prod.fst).contains name then
    .ok (d.filter (fun p => p.fst != name))
  else .error ("FileNotFoundError: " ++ name)

/-- `shutil.copy2(src, dst)`: read `src`, write its content under `dst`. -/
def copy2 (d : Dir) (src dst : String) : Except String Dir :=
  match readFile d src with
  | .error e => .error e
  | .ok c => .ok (writeFile d dst c)

/-- Lines 370-371, `_get_offline_reports`:
`sorted(glob.glob(os.path.join(self.report_dir, "crashreport*")))`.
The directory is kept in ascending filename order, so filtering the names
returns them already sorted. -/
def get_offline_reports (d : Dir) : List String :=
  (d.map Prod.fst).filter globMatch

/-- Lines 235-240, `delete_offline_reports`: `for report in
self._get_offline_reports(): os.remove(report)` — remove the globbed names
one at a time (helper for the loop). -/
def removeList (d : Dir) : List String → Except String Dir
  | [] => .ok d
  | r :: rest =>
    match osRemove d r with
    | .error e => .error e
    | .ok d1 => removeList d1 rest

/-- Lines 235-240, `delete_offline_reports`. -/
def delete_offline_reports (d : Dir) : Except String Dir :=
  removeList d (get_offline_reports d)

/-- Lines 358-361, the shift loop of `_save_report`:
`for ii, report in enumerate(reversed(offline_reports)): n = int(report[-2:]);
shutil.copy2(report, report_template % (n + 1))`.
Returns the directory after the copies together with the final value of the
loop variable `report` (used by `os.remove(report)` on line 362). -/
def shift_loop (d : Dir) : List String → Except String (Dir × Option String)
  | [] => .ok (d, none)
  | r :: rest =>
    match pyInt (pySuffix2 r) with
    | .error e => .error e
    | .ok n =>
      match copy2 d r (report_template (n + 1)) with
      | .error e => .error e
      | .ok d1 =>
        match shift_loop d1 rest with
        | .error e => .error e
        | .ok (d2, last) => .ok (d2, some (last.getD r))

/-- Lines 350-368, `_save_report` with the report body already formatted as
`content` (body formatting is an external collaborator).  If reports exist:
shift each of them (newest-first, i.e. the reversed sorted listing) to
ordinal `n+1`, remove the file named by the loop variable, evict ordinal
`offline_report_limit + 1` when the pre-save count reached the limit; then
write `content` at ordinal 1. -/
def save_report (limit : Nat) (content : String) (d : Dir) : Except String Dir :=
  let offline := get_offline_reports d
  if offline = [] then
    .ok (writeFile d (report_template 1) content)
  else
    match shift_loop d offline.reverse with
    | .error e => .error e
    | .ok (d1, lastR) =>
      match osRemove d1 (lastR.getD "") with
      | .error e => .error e
      | .ok d2 =>
        match (if limit ≤ offline.length then osRemove d2 (report_template (limit + 1))
               else .ok d2) with
        | .error e => .error e
        | .ok d3 => .ok (writeFile d3 (report_template 1) content)

/-- Well-formed directory state: filenames are distinct (a real directory
cannot hold two files of the same name). -/
abbrev DirWF (d : Dir) : Prop := (d.map Prod.fst).Nodup

/-!  Channels.  A wire step (SMTP session, FTP connect/login, cwd, upload)
is an external effect; each is passed in as an `Except String Unit` oracle:
`.ok ()` when the call returns, `.error e` when it raises. -/

/-- Lines 289-327, `_sendmail`: builds the MIME message (pure formatting,
abstracted), then runs the whole SMTP session — connect, ehlo, starttls,
login, sendmail, close — inside `try: ... except Exception: log; return
False`, and returns `True` on success.  `session` is the outcome of the
`try` block. -/
def sendmail (session : Except String Unit) : Bool :=
  match session with
  | .ok _ => true
  | .error _ => false

/-- Lines 242-265, `_ftp_submit`.  `watcher` is `self._watcher` (whether a
watcher thread object exists), `watcherEnabled` is `self._watcher_enabled`.
`connectLogin` is the outcome of the guarded `ftp.connect(); ftp.login()`;
its `except ftplib.all_errors` clause logs, calls `stop_watcher()` (lines
116-122: clears `_watcher_enabled` when `self._watcher` is set) and returns
`False`.  The remaining calls — the local temp-file write, `ftp.cwd(path)`,
`ftp.nlst()` and `ftp.storlines(...)` (the latter two folded into
`upload`) — run outside any `try`, so their errors propagate.  Result: the
returned value (or propagated exception) paired with the
`_watcher_enabled` flag after the call. -/
def ftp_submit (watcher watcherEnabled : Bool)
    (connectLogin cwdStep upload : Except String Unit) :
    Except String Bool × Bool :=
  match connectLogin with
  | .error _ => (.ok false, if watcher then false else watcherEnabled)
  | .ok _ =>
    match cwdStep with
    | .error e => (.error e, watcherEnabled)
    | .ok _ =>
      match upload with
      | .error e => (.error e, watcherEnabled)
      | .ok _ => (.ok true, watcherEnabled)

/-!  Reporter controller. -/

/-- The mutable fields of a `CrashReporter` instance that the modelled
operations read or write.  `smtp` / `ftp` record whether `setup_smtp` /
`setup_ftp` was called (`self._smtp is not None`); the connection
parameters themselves are only consumed by the abstracted wire calls.
`log` is the trace of the logger messages the model tracks. -/
structure CRState where
  enabled : Bool
  smtp : Bool
  ftp : Bool
  dir : Dir
  watcher : Bool
  watcherEnabled : Bool
  limit : Nat
  log : List String
deriving DecidableEq

/-- Lines 127-145, `__exit__`, with the formatted report body passed as
`content` (lines 147-233 `subject`/`body`/`attachments` are the external
formatting collaborator).  When enabled and an exception type is present:
`great_success = False`, OR in `_sendmail` when SMTP is configured, OR in
`_ftp_submit` when FTP is configured (a raised exception propagates), and
if still false, `_save_report()`.  When enabled without an exception:
nothing at all.  When disabled: log `'No crashes detected.'` (the `else`
of `if self._enabled`). -/
def crExit (s : CRState) (etype : Bool) (content : String)
    (mailSession connectLogin cwdStep upload : Except String Unit) :
    Except String CRState :=
  if s.enabled then
    if etype then
      let gs1 : Bool := if s.smtp then sendmail mailSession else false
      let afterFtp : Except String (Bool × CRState) :=
        if s.ftp then
          match ftp_submit s.watcher s.watcherEnabled connectLogin cwdStep upload with
          | (.error e, _) => .error e
          | (.ok b, we) => .ok (gs1 || b, { s with watcherEnabled := we })
        else .ok (gs1, s)
      match afterFtp with
      | .error e => .error e
      | .ok (gs, s2) =>
        if gs then .ok s2
        else
          match save_report s2.limit content s2.dir with
          | .error e => .error e
          | .ok d1 => .ok { s2 with dir := d1 }
    else .ok s
  else .ok { s with log := s.log ++ ["CrashReporter: No crashes detected."] }

/-!  Retry scheduler (`_watcher_thread`). -/

/-- Lines 329-343, `_smtp_send_offline_reports`, with the outcome of the
inner `_sendmail` call abstracted as `sendResult`: when the store holds
offline reports it concatenates them into one body and returns
`_sendmail`'s boolean; when the store is empty it falls off the end of the
function and returns `None` — hence the `Option`. -/
def smtp_send_offline_reports (d : Dir) (sendResult : Bool) : Option Bool :=
  if get_offline_reports d = [] then none else some sendResult

/-- The Python `TypeError` raised by `great_success |= result` when
`result` is `None`. -/
def typeErrorMsg : String :=
  "TypeError: unsupported operand types for |=: bool and NoneType"

/-- `great_success |= result` for a `result` that may be `None`
(line 384: `great_success |= self._smtp_send_offline_reports()`). -/
def pyOrAssign (b : Bool) (r : Option Bool) : Except String Bool :=
  match r with
  | some c => .ok (b || c)
  | none => .error typeErrorMsg

/-- Lines 382-387, the body of one retry cycle: OR in
`_smtp_send_offline_reports()` when SMTP is configured (this is where the
`None` result raises a `TypeError`), then OR in
`_ftp_send_offline_reports()` when FTP is configured, whose outcome —
`False` on connect failure, `True` on success, a propagated exception from
`cwd`/`storlines` — is the oracle `ftpSend`. -/
def watcher_cycle (smtpC ftpC : Bool) (d : Dir) (gs : Bool)
    (smtpSend : Bool) (ftpSend : Except String Bool) : Except String Bool :=
  match (if smtpC then pyOrAssign gs (smtp_send_offline_reports d smtpSend) else .ok gs) with
  | .error e => .error e
  | .ok g1 =>
    if ftpC then
      match ftpSend with
      | .error e => .error e
      | .ok b => .ok (g1 || b)
    else .ok g1

/-- Outcome of a bounded run of the watcher thread: `finished dir completed
purges` — the loop exited (success or disable) having completed `completed`
attempt cycles and run the final purge `purges` times; `raised e completed`
— an uncaught exception killed the thread; `fuelOut` — the supplied bound
on iterations ran out (the loop was still running). -/
inductive WatchResult where
  | finished (d : Dir) (completed purges : Nat)
  | raised (e : String) (completed : Nat)
  | fuelOut
deriving DecidableEq

/-- Lines 373-391, `_watcher_thread`: `while not great_success: sleep;
if not self._watcher_enabled: break; <cycle>`, then `if great_success:
self.delete_offline_reports()`.  The store never changes during the loop
(channels only read it; this model is the single-thread semantics of the
thread body).  `enabledAt i` is the value of `self._watcher_enabled` read
at the top of cycle `i`; `smtpSend i` / `ftpSend i` are the channel
outcomes of cycle `i` (cycles numbered from 1); `fuel` bounds the number of
loop entries inspected. -/
def watcher_loop (smtpC ftpC : Bool) (d : Dir)
    (enabledAt smtpSend : Nat → Bool) (ftpSend : Nat → Except String Bool) :
    Nat → Nat → Bool → WatchResult
  | 0, _, _ => .fuelOut
  | fuel + 1, completed, gs =>
    if gs then
      match delete_offline_reports d with
      | .ok d1 => .finished d1 completed 1
      | .error e => .raised e completed
    else if enabledAt (completed + 1) = false then
      .finished d completed 0
    else
      match watcher_cycle smtpC ftpC d gs (smtpSend (completed + 1)) (ftpSend (completed + 1)) with
      | .error e => .raised e completed
      | .ok gs1 => watcher_loop smtpC ftpC d enabledAt smtpSend ftpSend fuel (completed + 1) gs1

/-!  Sequences of store operations, for the store invariants.  A storage
error is not caught inside `_save_report` / `delete_offline_reports`; it
propagates to the caller, whose policy is to log and continue, so a failed
operation leaves the directory as it was (in `_save_report` the
`ValueError` of the shift loop fires before any file is copied). -/

/-- A store operation: a save of some formatted content, or
`delete_offline_reports`. -/
inductive StoreOp where
  | save (content : String)
  | purge

/-- Run one store operation; an error leaves the directory unchanged. -/
def runOp (limit : Nat) (d : Dir) : StoreOp → Dir
  | .save c =>
    match save_report limit c d with
    | .ok d1 => d1
    | .error _ => d
  | .purge =>
    match delete_offline_reports d with
    | .ok d1 => d1
    | .error _ => d

/-- Run a sequence of store operations from the empty store. -/
def runOps (limit : Nat) (ops : List StoreOp) : Dir :=
  ops.foldl (runOp limit) []

end CrashReporter

namespace CrashReporter

/-! ## Helper lemmas -/

/-- Line 367-368: on an empty store the shift block is skipped and the
content is written directly at ordinal 1. -/
lemma save_report_empty (limit : Nat) (content : String) :
    save_report limit content [] = .ok [(report_template 1, content)] := rfl

/-- Scenario C start state: enabled reporter, mail channel configured,
empty store, watcher not running (constructed over an empty directory). -/
def scenC : CRState :=
  { enabled := true, smtp := true, ftp := false, dir := [],
    watcher := false, watcherEnabled := false, limit := 10, log := [] }

/-- The state after the exit of Scenario C: one report saved, nothing else
changed. -/
def scenCAfter : CRState := { scenC with dir := [(report_template 1, "r")] }

/-- An enabled reporter with no configured channel and an empty store. -/
def idleState : CRState :=
  { enabled := true, smtp := false, ftp := false, dir := [],
    watcher := false, watcherEnabled := false, limit := 10, log := [] }

/-- `os.remove` succeeds on a present file and deletes exactly its entry. -/
lemma osRemove_of_mem (d : Dir) (n : String) (h : n ∈ d.map Prod.fst) :
    osRemove d n = .ok (d.filter (fun p => p.fst != n)) := by
  unfold osRemove
  rw [if_pos (List.elem_eq_true_of_mem h)]

/-- One step of the deletion loop on a present file. -/
lemma removeList_cons (d : Dir) (r : String) (l : List String)
    (h : r ∈ d.map Prod.fst) :
    removeList d (r :: l) = removeList (d.filter (fun p => p.fst != r)) l := by
  simp only [removeList, osRemove_of_mem d r h]

/-- Deleting a duplicate-free list of present filenames succeeds and keeps
exactly the entries whose name is not in the list. -/
lemma removeList_spec : ∀ (l : List String) (d : Dir), l.Nodup →
    (∀ n ∈ l, n ∈ d.map Prod.fst) →
    removeList d l = .ok (d.filter (fun p => !(decide (p.fst ∈ l))))
  | [], d, _, _ => by simp [removeList]
  | r :: l, d, hnd, hmem => by
    rw [removeList_cons d r l (hmem r (List.mem_cons_self r l))]
    rw [removeList_spec l _ (List.Nodup.of_cons hnd) ?hsub]
    case hsub =>
      intro n hn
      have hne : n ≠ r := fun hEq => (List.nodup_cons.mp hnd).1 (hEq ▸ hn)
      have := hmem n (List.mem_cons_of_mem r hn)
      simp only [List.mem_map] at this ⊢
      obtain ⟨p, hp, hpn⟩ := this
      exact ⟨p, List.mem_filter.mpr ⟨hp, by simp [hpn, hne]⟩, hpn⟩
    rw [List.filter_filter]
    congr 1
    refine List.filter_congr ?_
    intro p _
    by_cases hpr : p.fst = r <;> simp [hpr]

/-- On a well-formed directory, `delete_offline_reports` succeeds and keeps
exactly the entries that do not match `crashreport*`. -/
lemma delete_spec (d : Dir) (h : DirWF d) :
    delete_offline_reports d = .ok (d.filter (fun p => !(globMatch p.fst))) := by
  unfold delete_offline_reports
  rw [removeList_spec (get_offline_reports d) d (h.filter globMatch)
    (fun n hn => List.mem_of_mem_filter hn)]
  congr 1
  refine List.filter_congr ?_
  intro p hp
  have hmem : p.fst ∈ d.map Prod.fst := List.mem_map.mpr ⟨p, hp, rfl⟩
  by_cases hg : globMatch p.fst
  · have hin : p.fst ∈ get_offline_reports d := List.mem_filter.mpr ⟨hmem, hg⟩
    simp [hin, hg]
  · have hout : p.fst ∉ get_offline_reports d := fun hc => hg (List.of_mem_filter hc)
    simp [hout, hg]

/-- A directory holding no `crashreport*` entries lists no offline reports. -/
lemma glob_filter_empty (d : Dir) :
    get_offline_reports (d.filter (fun p => !(globMatch p.fst))) = [] := by
  rw [List.eq_nil_iff_forall_not_mem]
  intro n hn
  have h2 : globMatch n = true := List.of_mem_filter hn
  obtain ⟨p, hp, rfl⟩ := List.mem_map.mp (List.mem_of_mem_filter hn)
  have h3 := List.of_mem_filter hp
  simp [h2] at h3

/-- Purging a well-formed store succeeds, leaves no listed report, and a
second purge succeeds without touching anything. -/
lemma purge_spec (d : Dir) (h : DirWF d) :
    ∃ d1, delete_offline_reports d = .ok d1 ∧ get_offline_reports d1 = [] ∧
      delete_offline_reports d1 = .ok d1 := by
  refine ⟨_, delete_spec d h, glob_filter_empty d, ?_⟩
  unfold delete_offline_reports
  rw [glob_filter_empty d]
  rfl

/-- The directory states reachable by store operations from the empty
store: empty, or a single report at ordinal 1 (every save onto a non-empty
store raises before mutating anything — see claim C1). -/
def ReachInv (d : Dir) : Prop := d = [] ∨ ∃ c, d = [(report_template 1, c)]

/-- One store operation preserves the reachable-state invariant. -/
lemma runOp_inv (limit : Nat) (op : StoreOp) (d : Dir) (h : ReachInv d) :
    ReachInv (runOp limit d op) := by
  rcases h with h | ⟨c, h⟩ <;> subst h <;> cases op
  · exact Or.inr ⟨_, rfl⟩
  · exact Or.inl rfl
  · exact Or.inr ⟨c, rfl⟩
  · exact Or.inl rfl

/-- Every state reachable by a sequence of store operations satisfies the
invariant. -/
lemma runOps_inv (limit : Nat) : ∀ (ops : List StoreOp) (d : Dir), ReachInv d →
    ReachInv (List.foldl (runOp limit) d ops)
  | [], _, h => h
  | op :: ops, d, h => runOps_inv limit ops _ (runOp_inv limit op d h)

/-- A failing retry cycle: with reports present, the watcher enabled and
the mail send failing, one loop entry just moves to the next cycle. -/
lemma watcher_step_fail (d : Dir) (en sm : Nat → Bool)
    (fr : Nat → Except String Bool) (fuel completed : Nat)
    (hne : get_offline_reports d ≠ []) (hen : en (completed + 1) = true)
    (hsm : sm (completed + 1) = false) :
    watcher_loop true false d en sm fr (fuel + 1) completed false =
      watcher_loop true false d en sm fr fuel (completed + 1) false := by
  simp [watcher_loop, watcher_cycle, smtp_send_offline_reports, pyOrAssign,
    hen, hsm, hne]

/-- A succeeding retry cycle: with reports present, the watcher enabled and
the mail send succeeding, one loop entry sets `great_success`. -/
lemma watcher_step_succ (d : Dir) (en sm : Nat → Bool)
    (fr : Nat → Except String Bool) (fuel completed : Nat)
    (hne : get_offline_reports d ≠ []) (hen : en (completed + 1) = true)
    (hsm : sm (completed + 1) = true) :
    watcher_loop true false d en sm fr (fuel + 1) completed false =
      watcher_loop true false d en sm fr fuel (completed + 1) true := by
  simp [watcher_loop, watcher_cycle, smtp_send_offline_reports, pyOrAssign,
    hen, hsm, hne]

/-- Once `great_success` holds, the loop exits and purges the store. -/
lemma watcher_finish (d d1 : Dir) (en sm : Nat → Bool)
    (fr : Nat → Except String Bool) (fuel completed : Nat)
    (hdel : delete_offline_reports d = .ok d1) :
    watcher_loop true false d en sm fr (fuel + 1) completed true =
      .finished d1 completed 1 := by
  simp [watcher_loop, hdel]

/-- `m` consecutive failing cycles advance the cycle counter by `m`. -/
lemma watcher_skip (d : Dir) (en sm : Nat → Bool)
    (fr : Nat → Except String Bool) (hne : get_offline_reports d ≠ [])
    (hen : ∀ i, en i = true) :
    ∀ (m fuel completed : Nat),
      (∀ i, completed < i → i ≤ completed + m → sm i = false) →
      watcher_loop true false d en sm fr (m + fuel) completed false =
        watcher_loop true false d en sm fr fuel (completed + m) false
  | 0, fuel, completed, _ => by simp
  | m + 1, fuel, completed, h => by
    have h1 : sm (completed + 1) = false := h (completed + 1) (by omega) (by omega)
    have e1 : (m + 1) + fuel = (m + fuel) + 1 := by omega
    rw [e1, watcher_step_fail d en sm fr (m + fuel) completed hne (hen _) h1]
    rw [watcher_skip d en sm fr hne hen m fuel (completed + 1)
      (fun i hi1 hi2 => h i (by omega) (by omega))]
    have e2 : completed + 1 + m = completed + (m + 1) := by omega
    rw [e2]

/-! ## Claims -/

/-- Claim C1: the spec (and the class docstring) promise a bounded FIFO —
with `offline_report_limit = 3`, saving `r1, r2, r3, r4` should leave three
reports with `r4` at ordinal 1 and `r1` evicted.  The code cannot rotate at
all: report files are named `crashreport%02d.txt`, while the shift loop
parses `int(report[-2:])`, i.e. the two characters `"xt"`, so the second
`save` raises `ValueError` before copying anything and the store keeps only
`r1`. -/
theorem C1_second_save_raises_valueerror :
    save_report 3 "r1" [] = .ok [(report_template 1, "r1")] ∧
    save_report 3 "r2" [(report_template 1, "r1")] =
      .error "ValueError: invalid literal for int: xt" :=
  ⟨rfl, rfl⟩

/-- Claim C2 (counterexample): on scope exit with a failure, mail channel
configured and failing, the controller saves exactly one report at
ordinal 1 — but `__exit__` never calls `start_watcher`, so the watcher flag
stays `false`: the retry scheduler is not running, contradicting the
claim. -/
theorem C2_counterexample :
    crExit scenC true "r" (.error "connection refused") (.ok ()) (.ok ()) (.ok ()) =
      .ok scenCAfter ∧
    get_offline_reports scenCAfter.dir = [report_template 1] ∧
    scenCAfter.watcherEnabled = false :=
  ⟨rfl, rfl, rfl⟩

/-- Claim C2 (amended): on scope exit with a failure, reporting enabled,
the mail channel configured and its live attempt failing, FTP not
configured and the store empty, the controller persists exactly one report
at ordinal 1 — and changes nothing else: in particular the watcher fields
are left as they were, because `__exit__` does not start the retry
scheduler (the watcher starts only in the constructor, when offline reports
already exist). -/
theorem C2_exit_saves_without_starting_watcher (s : CRState) (content e : String)
    (cl cw up : Except String Unit)
    (hen : s.enabled = true) (hsm : s.smtp = true) (hft : s.ftp = false)
    (hd : s.dir = []) :
    crExit s true content (.error e) cl cw up =
      .ok { s with dir := [(report_template 1, content)] } := by
  simp [crExit, hen, hsm, hft, sendmail, hd, save_report_empty]

/-- Witness for C2: the amended statement at the Scenario C state. -/
theorem C2_witness :
    crExit scenC true "r" (.error "connection refused") (.ok ()) (.ok ()) (.ok ()) =
      .ok { scenC with dir := [(report_template 1, "r")] } :=
  C2_exit_saves_without_starting_watcher scenC "r" "connection refused"
    (.ok ()) (.ok ()) (.ok ()) rfl rfl rfl rfl

/-- Claim C3 (counterexample): a network error raised by `ftp.cwd` — after
a successful connect and login — is not caught by `_ftp_submit`: the
exception propagates to the caller instead of becoming `false`, refuting
"a channel attempt never propagates an exception". -/
theorem C3_counterexample :
    ftp_submit true true (.ok ()) (.error "550 cwd failed") (.ok ()) =
      (.error "550 cwd failed", true) := rfl

/-- Claim C3 (amended): the mail channel converts every error raised in its
delivery session into a `false` return; the transfer channel converts
connection/login errors into `false`, but an error raised after login
(directory change or upload) propagates to the caller. -/
theorem C3_channel_error_conversion :
    (∀ e : String, sendmail (.error e) = false) ∧
    (∀ (w we : Bool) (e : String) (cw up : Except String Unit),
      (ftp_submit w we (.error e) cw up).fst = .ok false) ∧
    (∀ (w we : Bool) (e : String) (up : Except String Unit),
      (ftp_submit w we (.ok ()) (.error e) up).fst = .error e) :=
  ⟨fun _ => rfl, fun _ _ _ _ _ => rfl, fun _ _ _ _ => rfl⟩

/-- Claim C4: the spec says an enabled reporter logs a no-op message on a
clean scope exit.  In the code the `'No crashes detected.'` log sits in the
`else` branch of `if self._enabled`: an enabled reporter leaving a clean
scope does nothing at all (first conjunct — the state, log included, is
unchanged), while a disabled reporter logs the message even when an
exception occurred (second conjunct). -/
theorem C4_no_failure_logs_nothing :
    crExit idleState false "c" (.ok ()) (.ok ()) (.ok ()) (.ok ()) = .ok idleState ∧
    crExit { idleState with enabled := false } true "c" (.ok ()) (.ok ()) (.ok ()) (.ok ()) =
      .ok { idleState with
            enabled := false
            log := ["CrashReporter: No crashes detected."] } :=
  ⟨rfl, rfl⟩

/-- Claim C5: after any sequence of save and purge operations starting from
the empty store, the listed reports are exactly `crashreport01.txt` ..
`crashreportNN.txt` for `NN = count` — a contiguous ordinal range
`[1, count]` with no gaps.  (The reachable states are the empty store and a
single report at ordinal 1: a save onto a non-empty store raises its
`ValueError` before copying or writing anything, so it cannot break the
invariant — see claim C1.) -/
theorem C5_ordinal_contiguity (limit : Nat) (ops : List StoreOp) :
    get_offline_reports (runOps limit ops) =
      (List.range (get_offline_reports (runOps limit ops)).length).map
        (fun i => report_template (i + 1)) := by
  have h := runOps_inv limit ops [] (Or.inl rfl)
  unfold runOps
  rcases h with h | ⟨c, h⟩ <;> rw [h]
  · rfl
  · rfl

/-- Claim C6: with `N ≥ 1` stored reports, the retry scheduler enabled
throughout, only the mail channel configured, and its bulk delivery failing
on every cycle before `K` and succeeding on cycle `K`, the watcher runs
exactly `K` cycles, then purges the whole store exactly once and stops. -/
theorem C6_watcher_convergence (d : Dir) (hwf : DirWF d)
    (hne : get_offline_reports d ≠ []) (K : Nat) (hK : 1 ≤ K)
    (sm : Nat → Bool) (fr : Nat → Except String Bool)
    (hfail : ∀ i, i < K → 1 ≤ i → sm i = false) (hsucc : sm K = true)
    (fuel : Nat) (hfuel : K + 1 ≤ fuel) :
    ∃ d1, delete_offline_reports d = .ok d1 ∧ get_offline_reports d1 = [] ∧
      watcher_loop true false d (fun _ => true) sm fr fuel 0 false =
        .finished d1 K 1 := by
  obtain ⟨d1, hdel, hempty, _⟩ := purge_spec d hwf
  refine ⟨d1, hdel, hempty, ?_⟩
  obtain ⟨g, rfl⟩ : ∃ g, fuel = (K - 1) + (g + 2) := ⟨fuel - K - 1, by omega⟩
  rw [watcher_skip d _ sm fr hne (fun _ => rfl) (K - 1) (g + 2) 0
    (fun i hi1 hi2 => hfail i (by omega) (by omega))]
  have e1 : (0 : Nat) + (K - 1) = K - 1 := by omega
  rw [e1]
  rw [watcher_step_succ d _ sm fr (g + 1) (K - 1) hne rfl
    (by have e : K - 1 + 1 = K := by omega
        rw [e]; exact hsucc)]
  have e2 : K - 1 + 1 = K := by omega
  rw [e2]
  exact watcher_finish d d1 _ sm fr g K hdel

/-- Witness for C6: one stored report, success on the second cycle. -/
theorem C6_witness :
    DirWF [(report_template 1, "x")] ∧
    ∃ d1, delete_offline_reports [(report_template 1, "x")] = .ok d1 ∧
      get_offline_reports d1 = [] ∧
      watcher_loop true false [(report_template 1, "x")] (fun _ => true)
        (fun i => i == 2) (fun _ => .ok false) 3 0 false = .finished d1 2 1 :=
  ⟨by decide, C6_watcher_convergence _ (by decide) (by decide) 2 (by decide)
    _ _ (by decide) (by decide) 3 (by decide)⟩

/-- Claim C7: a save on an empty store skips the shift/evict block entirely
and writes the content directly at ordinal 1, leaving exactly one stored
report. -/
theorem C7_save_on_empty_store (limit : Nat) (content : String) :
    save_report limit content [] = .ok [(report_template 1, content)] ∧
    get_offline_reports [(report_template 1, content)] = [report_template 1] :=
  ⟨save_report_empty limit content, rfl⟩

/-- Claim C8: `delete_offline_reports` removes each globbed file exactly
once, so on a well-formed store it succeeds and empties the listing, and a
second call iterates over an empty listing: it succeeds without raising and
the store stays empty — purge is idempotent. -/
theorem C8_purge_idempotent (d : Dir) (h : DirWF d) :
    ∃ d1, delete_offline_reports d = .ok d1 ∧ get_offline_reports d1 = [] ∧
      delete_offline_reports d1 = .ok d1 ∧ get_offline_reports d1 = [] :=
  let ⟨d1, h1, h2, h3⟩ := purge_spec d h
  ⟨d1, h1, h2, h3, h2⟩

/-- Witness for C8: a store with one report and one unrelated file. -/
theorem C8_witness :
    DirWF [("crashreport01.txt", "a"), ("other.log", "z")] ∧
    ∃ d1, delete_offline_reports [("crashreport01.txt", "a"), ("other.log", "z")] =
        .ok d1 ∧
      get_offline_reports d1 = [] ∧
      delete_offline_reports d1 = .ok d1 ∧ get_offline_reports d1 = [] :=
  ⟨by decide, C8_purge_idempotent _ (by decide)⟩

/-- Claim C9: with an empty store, `_smtp_send_offline_reports` falls off
the end of the function and returns `None`; a retry cycle with a configured
mail channel then raises `TypeError` at `great_success |= result`, killing
the watcher thread on its first cycle instead of completing it. -/
theorem C9_empty_store_mail_cycle_typeerror :
    (∀ r : Bool, smtp_send_offline_reports [] r = none) ∧
    (∀ (ftpC gs r : Bool) (fr : Except String Bool),
      watcher_cycle true ftpC [] gs r fr = .error typeErrorMsg) ∧
    (∀ (ftpC : Bool) (smtpSend : Nat → Bool) (ftpSend : Nat → Except String Bool)
      (fuel : Nat),
      watcher_loop true ftpC [] (fun _ => true) smtpSend ftpSend (fuel + 1) 0 false =
        .raised typeErrorMsg 0) :=
  ⟨fun _ => rfl, fun _ _ _ _ => rfl, fun _ _ _ _ => rfl⟩

/-- Claim C10: when a watcher thread exists, a connect/login failure of a
live FTP attempt not only returns `false`: the `except` clause of
`_ftp_submit` also calls `stop_watcher`, clearing `_watcher_enabled`, so
one live FTP connect failure disables the background retry task. -/
theorem C10_ftp_connect_failure_disables_watcher
    (we : Bool) (e : String) (cw up : Except String Unit) :
    ftp_submit true we (.error e) cw up = (.ok false, false) := rfl

end CrashReporter
